import Mathlib

/-!
# Verification of the solid-eureka WebGL drawables

Shallow embedding of `src/public/shapes.js` (classes `Cube`, `Triangle`,
`Texture`) and of the standalone triangle script (`src/unnamed/part_000`).

Every call the JavaScript makes to the WebGL context is recorded as a
`GLCmd`; a `draw()` method is embedded as a function from the ambient GL
environment (what `getProgramParameter(LINK_STATUS)` and
`getProgramInfoLog` would return) to an `Except String DrawResult`,
where `DrawResult` separates the one-time setup trace from the per-frame
trace issued by the `animate` closure.  Matrix arithmetic (the calls into
gl-matrix) is embedded exactly over `ℚ`, with the cosine/sine of a frame's
rotation angle passed in as parameters `c s : ℚ`.
-/

namespace SolidEureka

/-- WebGL enum values used by the source (numeric values from the WebGL 1
specification). -/
def TRIANGLES : Nat := 4
def DEPTH_TEST : Nat := 2929
def TEXTURE0 : Nat := 33984
def ARRAY_BUFFER : Nat := 34962
def TEXTURE_2D : Nat := 3553
def VERTEX_SHADER : Nat := 35633
def FRAGMENT_SHADER : Nat := 35632

/-- One call made to the WebGL context.  Payloads record the arguments the
claims are about: buffer-data lengths, attribute locations (an `Int`
because `getAttribLocation` yields `-1` for an unknown name), uniform
locations (`Option Nat`, `none` standing for WebGL's `null`), and the
`drawArrays` mode / first / count triple. -/
inductive GLCmd where
  | createBuffer
  | bindBuffer (target : Nat) (bound : Bool)
  | bufferData (target : Nat) (length : Nat)
  | createShader (stage : Nat)
  | shaderSource (stage : Nat)
  | compileShader (stage : Nat)
  | createProgram
  | attachShader (stage : Nat)
  | linkProgram
  | getAttribLocation (name : String) (loc : Int)
  | enableVertexAttribArray (loc : Int)
  | vertexAttribPointer (loc : Int) (size : Nat)
  | useProgram
  | enable (cap : Nat)
  | createTexture
  | bindTexture (target : Nat)
  | texImage2D
  | generateMipmap (target : Nat)
  | activeTexture (unit : Nat)
  | uniform1i (loc : Option Nat) (value : Int)
  | getUniformLocation (name : String) (loc : Option Nat)
  | uniformMatrix4fv (loc : Option Nat)
  | drawArrays (mode : Nat) (first : Nat) (count : Nat)
  deriving DecidableEq, Repr

/-- A linked WebGL program, abstracted to the names its shaders declare:
the attribute names and uniform names of the vertex/fragment sources. -/
structure Program where
  attributes : List String
  uniforms : List String
  deriving DecidableEq, Repr

/-- `gl.getAttribLocation(program, name)`: the location WebGL assigned to
an active attribute, `-1` when the name is not present in the linked
program (embedded as the index in the declared attribute list). -/
def glGetAttribLocation (p : Program) (name : String) : Int :=
  match p.attributes.indexOf? name with
  | some i => (i : Int)
  | none => -1

/-- `gl.getUniformLocation(program, name)`: `null` (here `none`) when the
name is not present in the linked program. -/
def glGetUniformLocation (p : Program) (name : String) : Option Nat :=
  p.uniforms.indexOf? name

/-- The program linked by `Cube.draw`: its vertex shader declares
attributes `position` and `colour` and uniform `matrix`
(`shapes.js` lines 66-80). -/
def cubeProgram : Program :=
  { attributes := ["position", "colour"], uniforms := ["matrix"] }

/-- The program linked by `Triangle.draw`: attributes `position` and
`color` (note the spelling) and uniform `matrix` (`shapes.js` lines
206-218). -/
def triangleProgram : Program :=
  { attributes := ["position", "color"], uniforms := ["matrix"] }

/-- The program linked by `Texture.draw`: attributes `position` and `uv`,
uniforms `matrix` and `textureID` (`shapes.js` lines 329-359). -/
def textureProgram : Program :=
  { attributes := ["position", "uv"], uniforms := ["matrix", "textureID"] }

/-- `Cube.bindPositionBuffer` (`shapes.js` 104-109): looks up `position`,
enables the location and points it at the buffer, three components per
vertex.  The source performs no check on the looked-up location. -/
def cubeBindPositionBuffer (program : Program) : List GLCmd :=
  let positionLocation := glGetAttribLocation program "position"
  [.getAttribLocation "position" positionLocation,
   .enableVertexAttribArray positionLocation,
   .bindBuffer ARRAY_BUFFER true,
   .vertexAttribPointer positionLocation 3]

/-- `Cube.bindColourBuffer` (`shapes.js` 111-116): looks up `colour` and
proceeds with whatever location comes back, `-1` included. -/
def cubeBindColourBuffer (program : Program) : List GLCmd :=
  let colourLocation := glGetAttribLocation program "colour"
  [.getAttribLocation "colour" colourLocation,
   .enableVertexAttribArray colourLocation,
   .bindBuffer ARRAY_BUFFER true,
   .vertexAttribPointer colourLocation 3]

/-- `Triangle.bindPositionBuffer` (`shapes.js` 238-243). -/
def triangleBindPositionBuffer (program : Program) : List GLCmd :=
  let positionLocation := glGetAttribLocation program "position"
  [.getAttribLocation "position" positionLocation,
   .enableVertexAttribArray positionLocation,
   .bindBuffer ARRAY_BUFFER true,
   .vertexAttribPointer positionLocation 3]

/-- `Triangle.bindColourBuffer` (`shapes.js` 244-249): looks up `color`. -/
def triangleBindColourBuffer (program : Program) : List GLCmd :=
  let colorLocation := glGetAttribLocation program "color"
  [.getAttribLocation "color" colorLocation,
   .enableVertexAttribArray colorLocation,
   .bindBuffer ARRAY_BUFFER true,
   .vertexAttribPointer colorLocation 3]

/-- `Texture.bindUVBuffer` (`shapes.js` 387-392): looks up `uv`, two
components per vertex. -/
def textureBindUVBuffer (program : Program) : List GLCmd :=
  let uvLocation := glGetAttribLocation program "uv"
  [.getAttribLocation "uv" uvLocation,
   .enableVertexAttribArray uvLocation,
   .bindBuffer ARRAY_BUFFER true,
   .vertexAttribPointer uvLocation 2]

/-- `Texture.bindPositionBuffer` (`shapes.js` 380-385). -/
def textureBindPositionBuffer (program : Program) : List GLCmd :=
  let positionLocation := glGetAttribLocation program "position"
  [.getAttribLocation "position" positionLocation,
   .enableVertexAttribArray positionLocation,
   .bindBuffer ARRAY_BUFFER true,
   .vertexAttribPointer positionLocation 3]

/-- The ambient GL driver behaviour a `draw()` call can observe: what
`getProgramParameter(LINK_STATUS)` returns and what
`getProgramInfoLog` would say. -/
structure GLEnv where
  linkStatus : Bool
  programInfoLog : String
  deriving DecidableEq, Repr

/-- The result of a successful `draw()`: the one-time setup trace and the
per-frame trace its `animate` closure issues on every scheduler tick. -/
structure DrawResult where
  setup : List GLCmd
  frame : List GLCmd
  deriving DecidableEq, Repr

/-- `Cube.positionBuffer` (`shapes.js` 38-44): create, bind, upload
`vertexData` (its length in floats), unbind. -/
def cubePositionBuffer (vlen : Nat) : List GLCmd :=
  [.createBuffer, .bindBuffer ARRAY_BUFFER true, .bufferData ARRAY_BUFFER vlen,
   .bindBuffer ARRAY_BUFFER false]

/-- `Cube.colourBuffer` (`shapes.js` 49-55). -/
def cubeColourBuffer (clen : Nat) : List GLCmd :=
  [.createBuffer, .bindBuffer ARRAY_BUFFER true, .bufferData ARRAY_BUFFER clen,
   .bindBuffer ARRAY_BUFFER false]

/-- `createVertexShader` / `createFragmentShader` of any of the three
classes: create the shader object, hand it its source, compile it. -/
def shaderStage (stage : Nat) : List GLCmd :=
  [.createShader stage, .shaderSource stage, .compileShader stage]

/-- Program object creation shared by all three `draw()` methods:
`createProgram`, attach both shaders, `linkProgram`. -/
def programSetup : List GLCmd :=
  [.createProgram, .attachShader VERTEX_SHADER, .attachShader FRAGMENT_SHADER,
   .linkProgram]

/-- The setup trace of `Cube.draw` (`shapes.js` 119-148) on the success
path: buffers, shaders, program link, attribute binds, `useProgram`,
depth test on.  `vlen` and `clen` are `vertexData.length` and
`colorData.length`. -/
def cubeSetup (vlen clen : Nat) : List GLCmd :=
  cubePositionBuffer vlen ++ cubeColourBuffer clen ++
  shaderStage VERTEX_SHADER ++ shaderStage FRAGMENT_SHADER ++
  programSetup ++
  cubeBindPositionBuffer cubeProgram ++ cubeBindColourBuffer cubeProgram ++
  [.useProgram, .enable DEPTH_TEST]

/-- The per-frame trace of `Cube.draw`'s `animate` closure
(`shapes.js` 151-159): look the `matrix` uniform up again, upload the
matrix, draw `vertexData.length / 3` vertices as triangles. -/
def cubeFrame (vlen : Nat) : List GLCmd :=
  [.getUniformLocation "matrix" (glGetUniformLocation cubeProgram "matrix"),
   .uniformMatrix4fv (glGetUniformLocation cubeProgram "matrix"),
   .drawArrays TRIANGLES 0 (vlen / 3)]

/-- `Cube.draw` (`shapes.js` 119-162): after `linkProgram` the code checks
`LINK_STATUS` and throws
`"Program failed to link: " + getProgramInfoLog(program)` when it is
false; otherwise it finishes setup and starts the animate loop. -/
def cubeDraw (env : GLEnv) (vlen clen : Nat) : Except String DrawResult :=
  if env.linkStatus then
    .ok { setup := cubeSetup vlen clen, frame := cubeFrame vlen }
  else
    .error ("Program failed to link: " ++ env.programInfoLog)

/-- `Triangle.positionBuffer` (`shapes.js` 190-195): unlike the Cube's, no
unbind at the end. -/
def trianglePositionBuffer (vlen : Nat) : List GLCmd :=
  [.createBuffer, .bindBuffer ARRAY_BUFFER true, .bufferData ARRAY_BUFFER vlen]

/-- `Triangle.colourBuffer` (`shapes.js` 197-202). -/
def triangleColourBuffer (clen : Nat) : List GLCmd :=
  [.createBuffer, .bindBuffer ARRAY_BUFFER true, .bufferData ARRAY_BUFFER clen]

/-- The setup trace of `Triangle.draw` (`shapes.js` 251-265): buffers,
shaders, program link — with no `LINK_STATUS` check anywhere — attribute
binds, `useProgram`.  No depth test. -/
def triangleSetup (vlen clen : Nat) : List GLCmd :=
  trianglePositionBuffer vlen ++ triangleColourBuffer clen ++
  shaderStage VERTEX_SHADER ++ shaderStage FRAGMENT_SHADER ++
  programSetup ++
  triangleBindPositionBuffer triangleProgram ++
  triangleBindColourBuffer triangleProgram ++
  [.useProgram]

/-- The per-frame trace of `Triangle.draw`'s `animate` closure
(`shapes.js` 272-277): the vertex count is the literal `3`. -/
def triangleFrame : List GLCmd :=
  [.getUniformLocation "matrix" (glGetUniformLocation triangleProgram "matrix"),
   .uniformMatrix4fv (glGetUniformLocation triangleProgram "matrix"),
   .drawArrays TRIANGLES 0 3]

/-- `Triangle.draw` (`shapes.js` 251-280): contains no throw statement and
never consults `env`, so it is a total function into `DrawResult`. -/
def triangleDraw (_env : GLEnv) (vlen clen : Nat) : DrawResult :=
  { setup := triangleSetup vlen clen, frame := triangleFrame }

/-- `Texture.positionBuffer` (`shapes.js` 312-318). -/
def texturePositionBuffer (vlen : Nat) : List GLCmd :=
  [.createBuffer, .bindBuffer ARRAY_BUFFER true, .bufferData ARRAY_BUFFER vlen]

/-- `Texture.uvBuffer` (`shapes.js` 320-325). -/
def textureUVBuffer (uvlen : Nat) : List GLCmd :=
  [.createBuffer, .bindBuffer ARRAY_BUFFER true, .bufferData ARRAY_BUFFER uvlen]

/-- The synchronous part of `Texture.getTexture` (`shapes.js` 364-378):
it creates the texture object, registers the `onload` callback, sets
`image.src` and returns at once — the upload itself is deferred. -/
def textureGetTexture : List GLCmd := [.createTexture]

/-- The deferred `image.onload` callback of `Texture.getTexture`
(`shapes.js` 368-374): only here are `texImage2D` and `generateMipmap`
issued, whenever the image finishes decoding. -/
def textureOnload : List GLCmd :=
  [.bindTexture TEXTURE_2D, .texImage2D, .generateMipmap TEXTURE_2D]

/-- The setup trace of `Texture.draw` (`shapes.js` 394-434): buffers,
texture object, unit 0 active and bound, shaders, link — again with no
`LINK_STATUS` check — binds, `useProgram`, depth test, and the
`textureID` sampler uniform set to `0`. -/
def textureSetup (vlen uvlen : Nat) : List GLCmd :=
  texturePositionBuffer vlen ++ textureUVBuffer uvlen ++
  textureGetTexture ++
  [.activeTexture TEXTURE0, .bindTexture TEXTURE_2D] ++
  shaderStage VERTEX_SHADER ++ shaderStage FRAGMENT_SHADER ++
  programSetup ++
  textureBindPositionBuffer textureProgram ++
  textureBindUVBuffer textureProgram ++
  [.useProgram, .enable DEPTH_TEST,
   .getUniformLocation "textureID" (glGetUniformLocation textureProgram "textureID"),
   .uniform1i (glGetUniformLocation textureProgram "textureID") 0]

/-- The per-frame trace of `Texture.draw`'s `animate` closure
(`shapes.js` 436-446): the model/view/projection products are CPU-side
gl-matrix arithmetic; the GL context only sees the uniform upload and the
draw. -/
def textureFrame (vlen : Nat) : List GLCmd :=
  [.getUniformLocation "matrix" (glGetUniformLocation textureProgram "matrix"),
   .uniformMatrix4fv (glGetUniformLocation textureProgram "matrix"),
   .drawArrays TRIANGLES 0 (vlen / 3)]

/-- `Texture.draw` (`shapes.js` 394-449): no throw statement, no link
check, and no dependence on whether the texture image has loaded yet —
`imageLoaded` is threaded through to make that independence statable. -/
def textureDraw (_env : GLEnv) (_imageLoaded : Bool) (vlen uvlen : Nat) :
    DrawResult :=
  { setup := textureSetup vlen uvlen, frame := textureFrame vlen }

/-- The per-frame trace of the standalone script's `animate`
(`src/unnamed/part_000` lines 110-118): the uniform location was cached
before the loop in `uniformLocations.matrix`, so each frame is exactly
the matrix upload and the draw of 3 vertices. -/
def scriptAnimateFrame : List GLCmd :=
  [.uniformMatrix4fv (glGetUniformLocation cubeProgram "matrix"),
   .drawArrays TRIANGLES 0 3]

/-- Commands that allocate a GPU resource. -/
def isAllocation : GLCmd → Bool
  | .createBuffer => true
  | .createShader _ => true
  | .createProgram => true
  | .createTexture => true
  | _ => false

/-- Commands that write data to the GPU: buffer/texture uploads, uniform
uploads and the draw command itself (queries and state binds are not
writes). -/
def isGPUWrite : GLCmd → Bool
  | .bufferData _ _ => true
  | .texImage2D => true
  | .generateMipmap _ => true
  | .uniform1i _ _ => true
  | .uniformMatrix4fv _ => true
  | .drawArrays _ _ _ => true
  | _ => false

/-- Two successive calls of `Cube.draw` on the same object: the method
closes over no allocation state (`this.program` is simply overwritten),
so the second call re-executes the same trace as the first. -/
def cubeDrawTwice (env : GLEnv) (vlen clen : Nat) :
    Except String DrawResult × Except String DrawResult :=
  (cubeDraw env vlen clen, cubeDraw env vlen clen)

/-! ## Default colour data -/

/-- An RGB colour as produced by one `randomColour()` call. -/
abbrev Colour := ℚ × ℚ × ℚ

/-- `Cube.generateRandomColours` (`shapes.js` 24-33): for each of the 6
faces draw one colour and push it for each of that face's 6 vertices.

Modelled from the spec: `randomColour` lives in `src/public/helper.js`,
which is absent from the source tree; the spec calls the Cube's default
colour data "per-face-random", so the random source is modelled as a
supply of colours indexed by the order of the `randomColour()` calls
(face 0 first). -/
def cubeGenerateRandomColours (supply : Nat → Colour) : List Colour :=
  (List.range 6).flatMap fun face => List.replicate 6 (supply face)

/-- `Triangle.generateRandomColours` (`shapes.js` 182-188): despite the
name, a fixed literal `Float32Array` — red, green, blue. -/
def triangleGenerateRandomColours : List ℚ :=
  [1, 0, 0,
   0, 1, 0,
   0, 0, 1]

/-! ## gl-matrix arithmetic

The source composes its model matrices with `glMatrix.mat4.translate`,
`.scale`, `.rotateZ`, `.rotateX`: each post-multiplies its input by the
elementary transform (`translate(out, a, v)` computes `a · T(v)`, etc.).
Embedded exactly over `ℚ`, with a frame's rotation angle represented by
its cosine/sine pair `c s`. -/

/-- 4×4 matrices over `ℚ`, column-vector convention (`M * v`). -/
abbrev Mat4 := Matrix (Fin 4) (Fin 4) ℚ

/-- `glMatrix.mat4.create()`: the identity. -/
def mat4create : Mat4 := 1

/-- The elementary translation matrix `T(x, y, z)`. -/
def translationMat (x y z : ℚ) : Mat4 :=
  !![1, 0, 0, x;
     0, 1, 0, y;
     0, 0, 1, z;
     0, 0, 0, 1]

/-- The elementary scaling matrix `S(x, y, z)`. -/
def scalingMat (x y z : ℚ) : Mat4 :=
  !![x, 0, 0, 0;
     0, y, 0, 0;
     0, 0, z, 0;
     0, 0, 0, 1]

/-- `R_z(θ)` for `c = cos θ`, `s = sin θ`. -/
def rotZMat (c s : ℚ) : Mat4 :=
  !![c, -s, 0, 0;
     s,  c, 0, 0;
     0,  0, 1, 0;
     0,  0, 0, 1]

/-- `R_x(θ)` for `c = cos θ`, `s = sin θ`. -/
def rotXMat (c s : ℚ) : Mat4 :=
  !![1, 0,  0, 0;
     0, c, -s, 0;
     0, s,  c, 0;
     0, 0,  0, 1]

/-- `glMatrix.mat4.translate(out, a, [x,y,z])`: `out = a · T(x,y,z)`. -/
def mat4translate (a : Mat4) (x y z : ℚ) : Mat4 := a * translationMat x y z

/-- `glMatrix.mat4.scale(out, a, [x,y,z])`: `out = a · S(x,y,z)`. -/
def mat4scale (a : Mat4) (x y z : ℚ) : Mat4 := a * scalingMat x y z

/-- `glMatrix.mat4.rotateZ(out, a, θ)`: `out = a · R_z(θ)`. -/
def mat4rotateZ (a : Mat4) (c s : ℚ) : Mat4 := a * rotZMat c s

/-- `glMatrix.mat4.rotateX(out, a, θ)`: `out = a · R_x(θ)`. -/
def mat4rotateX (a : Mat4) (c s : ℚ) : Mat4 := a * rotXMat c s

/-- The matrix both `Cube.draw` (`shapes.js` 146-148) and `Triangle.draw`
(`shapes.js` 267-269) build once, before the first frame:
`create` then `translate [.2, .5, 0]` then `scale [0.25, 0.25, 0.25]`. -/
def drawInitMatrix : Mat4 :=
  mat4scale (mat4translate mat4create (1/5) (1/2) 0) (1/4) (1/4) (1/4)

/-- One frame of `Triangle.draw`'s `animate` (`shapes.js` 274): rotate the
running matrix about Z by the per-frame angle (`Math.PI/2/70`, whose
cosine/sine are `c`, `s`). -/
def triangleAnimateStep (c s : ℚ) (m : Mat4) : Mat4 := mat4rotateZ m c s

/-- One frame of `Cube.draw`'s `animate` (`shapes.js` 153-154): rotate
about Z then about X, each by the same per-frame angle `Math.PI/2/70`. -/
def cubeAnimateStep (c s : ℚ) (m : Mat4) : Mat4 :=
  mat4rotateX (mat4rotateZ m c s) c s

/-- The vertex data of the triangle scenario
(`src/unnamed/part_000` 12-16): three vertices. -/
def triangleScenarioVertexData : List ℚ :=
  [0, 1/2, 0,
   -433/1000, -1/4, 0,
   433/1000, -1/4, 0]

/-- The colour data of the triangle scenario
(`src/unnamed/part_000` 19-23). -/
def triangleScenarioColorData : List ℚ :=
  [1, 0, 0,
   0, 1, 0,
   0, 0, 1]

/-! ## Theorems -/

/-- Iterating a right-multiplication accumulates a power on the right. -/
lemma iterate_mul_right (r m : Mat4) (n : ℕ) :
    (fun a => a * r)^[n] m = m * r ^ n := by
  induction n with
  | zero => simp
  | succ k ih =>
      rw [Function.iterate_succ_apply', ih, pow_succ, mul_assoc]

/-- C1: the binding helpers perform no check on the looked-up location:
`Cube.bindColourBuffer` run against a program whose shaders declare
`position`/`color` (the `Triangle` shader) gets `-1` back from
`getAttribLocation("colour")` and silently enables and points attribute
location `-1`; an absent uniform name likewise yields `null` (`none`)
with no error — the `UnknownBindingError` the spec demands is never
raised. -/
theorem c1_unknown_binding_is_silent :
    glGetAttribLocation triangleProgram "colour" = -1
    ∧ cubeBindColourBuffer triangleProgram
      = [.getAttribLocation "colour" (-1), .enableVertexAttribArray (-1),
         .bindBuffer ARRAY_BUFFER true, .vertexAttribPointer (-1) 3]
    ∧ glGetUniformLocation cubeProgram "textureID" = none := by
  refine ⟨rfl, rfl, rfl⟩

/-- C2 (counterexample): with link status false, `Triangle.draw` still
issues its draw call — there is no link-status check, no thrown
`LinkError`, and construction does not abort. -/
theorem c2_triangle_draws_despite_link_failure :
    GLCmd.drawArrays TRIANGLES 0 3
      ∈ (triangleDraw ⟨false, "link log"⟩ 9 9).frame := by
  simp [triangleDraw, triangleFrame]

/-- C2 (amended): only `Cube.draw` checks `LINK_STATUS` after
`linkProgram`, throwing an error that embeds the program info log and
issuing no draw; `Triangle.draw` and `Texture.draw` perform no check and
issue their draw calls regardless of link status. -/
theorem c2_link_check_cube_only (env : GLEnv) (vlen clen uvlen : Nat)
    (loaded : Bool) (h : env.linkStatus = false) :
    cubeDraw env vlen clen
      = .error ("Program failed to link: " ++ env.programInfoLog)
    ∧ GLCmd.drawArrays TRIANGLES 0 3 ∈ (triangleDraw env vlen clen).frame
    ∧ GLCmd.drawArrays TRIANGLES 0 (vlen / 3)
        ∈ (textureDraw env loaded vlen uvlen).frame := by
  refine ⟨?_, ?_, ?_⟩
  · simp [cubeDraw, h]
  · simp [triangleDraw, triangleFrame]
  · simp [textureDraw, textureFrame]

/-- C2 witness: the amended statement at a concrete failing link. -/
theorem c2_link_check_cube_only_witness :
    GLEnv.linkStatus ⟨false, "log"⟩ = false
    ∧ (cubeDraw ⟨false, "log"⟩ 108 108
        = .error ("Program failed to link: "
            ++ GLEnv.programInfoLog ⟨false, "log"⟩)
       ∧ GLCmd.drawArrays TRIANGLES 0 3
           ∈ (triangleDraw ⟨false, "log"⟩ 108 108).frame
       ∧ GLCmd.drawArrays TRIANGLES 0 (108 / 3)
           ∈ (textureDraw ⟨false, "log"⟩ true 108 72).frame) :=
  ⟨rfl, c2_link_check_cube_only ⟨false, "log"⟩ 108 108 72 true rfl⟩

/-- C3 (counterexample): a `Triangle` whose position array holds 18
floats (6 vertices) and whose colour array holds 9 floats (3 vertices)
is constructed without complaint, and its draw call issues the literal
`3` vertices, not `18 / 3 = 6`. -/
theorem c3_mismatched_counts_not_rejected :
    (triangleDraw ⟨true, ""⟩ 18 9).frame.getLast?
      = some (.drawArrays TRIANGLES 0 3)
    ∧ (3 : Nat) ≠ 18 / 3 := by
  refine ⟨rfl, by decide⟩

/-- C3 (amended): `Cube.draw` and `Texture.draw` pass
`vertexData.length / 3` as the `drawArrays` count while `Triangle.draw`
passes the literal `3` regardless of its data, and no variant compares
the vertex counts its attribute arrays imply — construction succeeds and
the draw is issued even when the counts differ. -/
theorem c3_vertex_counts (env : GLEnv) (vlen clen uvlen : Nat)
    (loaded : Bool) (h : env.linkStatus = true) :
    (∃ r, cubeDraw env vlen clen = .ok r
      ∧ GLCmd.drawArrays TRIANGLES 0 (vlen / 3) ∈ r.frame)
    ∧ GLCmd.drawArrays TRIANGLES 0 (vlen / 3)
        ∈ (textureDraw env loaded vlen uvlen).frame
    ∧ GLCmd.drawArrays TRIANGLES 0 3 ∈ (triangleDraw env vlen clen).frame := by
  refine ⟨⟨{ setup := cubeSetup vlen clen, frame := cubeFrame vlen }, ?_, ?_⟩,
    ?_, ?_⟩
  · simp [cubeDraw, h]
  · simp [cubeFrame]
  · simp [textureDraw, textureFrame]
  · simp [triangleDraw, triangleFrame]

/-- C3 witness: the amended statement at the mismatched 18/9 input. -/
theorem c3_vertex_counts_witness :
    GLEnv.linkStatus ⟨true, ""⟩ = true
    ∧ ((∃ r, cubeDraw ⟨true, ""⟩ 18 9 = .ok r
          ∧ GLCmd.drawArrays TRIANGLES 0 (18 / 3) ∈ r.frame)
       ∧ GLCmd.drawArrays TRIANGLES 0 (18 / 3)
           ∈ (textureDraw ⟨true, ""⟩ false 18 12).frame
       ∧ GLCmd.drawArrays TRIANGLES 0 3
           ∈ (triangleDraw ⟨true, ""⟩ 18 9).frame) :=
  ⟨rfl, c3_vertex_counts ⟨true, ""⟩ 18 9 12 false rfl⟩

/-- C4: when the colours the random source hands out for the six faces
are pairwise distinct, the Cube's default colour data is exactly the
6 face colours (no duplicates), each repeated across 6 consecutive
vertices, 36 colour triples in all; and `Cube.draw` enables depth
testing during setup. -/
theorem c4_cube_default_colours (supply : Nat → Colour)
    (h : ∀ i, i < 6 → ∀ j, j < 6 → supply i = supply j → i = j)
    (env : GLEnv) (vlen clen : Nat) (he : env.linkStatus = true) :
    (cubeGenerateRandomColours supply).length = 36
    ∧ cubeGenerateRandomColours supply
      = [supply 0, supply 1, supply 2, supply 3, supply 4,
         supply 5].flatMap (List.replicate 6)
    ∧ [supply 0, supply 1, supply 2, supply 3, supply 4, supply 5].Nodup
    ∧ ∃ r, cubeDraw env vlen clen = .ok r ∧ .enable DEPTH_TEST ∈ r.setup := by
  refine ⟨rfl, rfl, ?_, ?_⟩
  · have hlist : [supply 0, supply 1, supply 2, supply 3, supply 4, supply 5]
        = List.ofFn (fun i : Fin 6 => supply i) := rfl
    rw [hlist, List.nodup_ofFn]
    exact fun a b hab => Fin.ext (h a.val a.isLt b.val b.isLt hab)
  · exact ⟨{ setup := cubeSetup vlen clen, frame := cubeFrame vlen },
      by simp [cubeDraw, he], by simp [cubeSetup, cubeBindPositionBuffer,
        cubeBindColourBuffer, cubePositionBuffer, cubeColourBuffer,
        shaderStage, programSetup]⟩

/-- C4 witness: the property at an explicitly injective supply. -/
theorem c4_cube_default_colours_witness :
    (∀ i, i < 6 → ∀ j, j < 6 →
      (fun n : Nat => (((n : ℚ), 0, 0) : Colour)) i
        = (fun n : Nat => (((n : ℚ), 0, 0) : Colour)) j → i = j)
    ∧ GLEnv.linkStatus ⟨true, ""⟩ = true
    ∧ ((cubeGenerateRandomColours
          (fun n : Nat => (((n : ℚ), 0, 0) : Colour))).length = 36
       ∧ cubeGenerateRandomColours (fun n : Nat => (((n : ℚ), 0, 0) : Colour))
         = [((0 : ℚ), (0 : ℚ), (0 : ℚ)), (1, 0, 0), (2, 0, 0), (3, 0, 0),
            (4, 0, 0), (5, 0, 0)].flatMap (List.replicate 6)
       ∧ ([((0 : ℚ), (0 : ℚ), (0 : ℚ)), (1, 0, 0), (2, 0, 0), (3, 0, 0),
            (4, 0, 0), (5, 0, 0)] : List Colour).Nodup
       ∧ ∃ r, cubeDraw ⟨true, ""⟩ 108 108 = .ok r
           ∧ .enable DEPTH_TEST ∈ r.setup) := by
  have h : ∀ i, i < 6 → ∀ j, j < 6 →
      (fun n : Nat => (((n : ℚ), 0, 0) : Colour)) i
        = (fun n : Nat => (((n : ℚ), 0, 0) : Colour)) j → i = j := by decide
  have main := c4_cube_default_colours
    (fun n : Nat => (((n : ℚ), 0, 0) : Colour)) h ⟨true, ""⟩ 108 108 rfl
  refine ⟨h, rfl, main.1, ?_, ?_, main.2.2.2⟩
  · have := main.2.1
    norm_num at this ⊢
    exact this
  · have := main.2.2.1
    norm_num at this ⊢
    exact this

/-- C5: the per-frame transform update is purely incremental — a Cube
frame turns the running matrix `M` into `M · (R_z · R_x)` (one
post-multiplication per configured rotation, Z then X), a Triangle
frame into `M · R_z`; after `N` frames starting from the once-applied
translate/scale matrix the result is that initial matrix times the
`N`-th power of the per-frame rotation, and with no other transform
(identity start, single Z rotation) it is exactly the `N`-fold product
of `R_z(Δθ)`. -/
theorem c5_incremental_rotation (c s : ℚ) (m : Mat4) (n : ℕ) :
    cubeAnimateStep c s m = m * (rotZMat c s * rotXMat c s)
    ∧ triangleAnimateStep c s m = m * rotZMat c s
    ∧ (triangleAnimateStep c s)^[n] drawInitMatrix
        = drawInitMatrix * rotZMat c s ^ n
    ∧ (triangleAnimateStep c s)^[n] 1 = rotZMat c s ^ n := by
  refine ⟨?_, rfl, ?_, ?_⟩
  · simp [cubeAnimateStep, mat4rotateX, mat4rotateZ, mul_assoc]
  · exact iterate_mul_right (rotZMat c s) drawInitMatrix n
  · have h1 := iterate_mul_right (rotZMat c s) 1 n
    rw [one_mul] at h1
    exact h1

/-- C6: no per-frame trace of any variant (Cube, Triangle, Texture, and
the standalone script's `animate`) contains a GPU allocation, and the
only GPU writes in a frame are the matrix uniform upload and the
`drawArrays` command itself. -/
theorem c6_frames_never_allocate (vlen : Nat) :
    (cubeFrame vlen).filter isAllocation = []
    ∧ (cubeFrame vlen).filter isGPUWrite
      = [.uniformMatrix4fv (glGetUniformLocation cubeProgram "matrix"),
         .drawArrays TRIANGLES 0 (vlen / 3)]
    ∧ triangleFrame.filter isAllocation = []
    ∧ triangleFrame.filter isGPUWrite
      = [.uniformMatrix4fv (glGetUniformLocation triangleProgram "matrix"),
         .drawArrays TRIANGLES 0 3]
    ∧ (textureFrame vlen).filter isAllocation = []
    ∧ (textureFrame vlen).filter isGPUWrite
      = [.uniformMatrix4fv (glGetUniformLocation textureProgram "matrix"),
         .drawArrays TRIANGLES 0 (vlen / 3)]
    ∧ scriptAnimateFrame.filter isAllocation = []
    ∧ scriptAnimateFrame.filter isGPUWrite = scriptAnimateFrame :=
  ⟨rfl, rfl, rfl, rfl, rfl, rfl, rfl, rfl⟩

/-- C7 (counterexample): calling `Cube.draw` a second time on the same
object is not rejected — it succeeds and re-executes a setup trace that
performs five fresh GPU allocations (two buffers, two shaders, one
program), so GPU resources are double-allocated. -/
theorem c7_second_draw_reallocates :
    (cubeDrawTwice ⟨true, ""⟩ 108 108).2
      = .ok { setup := cubeSetup 108 108, frame := cubeFrame 108 }
    ∧ ((cubeSetup 108 108).filter isAllocation).length = 5 :=
  ⟨rfl, rfl⟩

/-- C7 (amended): every call of `draw()` allocates afresh — each
invocation's setup trace performs 5 GPU allocations (Texture: 6,
including the texture object), and a repeated call is not rejected: it
returns exactly the same allocating trace as the first. -/
theorem c7_draw_never_deduplicates (env : GLEnv) (vlen clen uvlen : Nat) :
    (cubeDrawTwice env vlen clen).2 = (cubeDrawTwice env vlen clen).1
    ∧ ((cubeSetup vlen clen).filter isAllocation).length = 5
    ∧ ((triangleSetup vlen clen).filter isAllocation).length = 5
    ∧ ((textureSetup vlen uvlen).filter isAllocation).length = 6 :=
  ⟨rfl, rfl, rfl, rfl⟩

/-- C8: on the scenario data (3 vertices, red/green/blue colours —
which coincide with the Triangle's defaults), the Triangle's per-frame
trace ends in a draw of exactly 3 vertices in triangle-list topology,
and with zero per-frame rotation (cos 1, sin 0) the matrix uploaded on
a frame is exactly `identity · translate(0.2, 0.5, 0) ·
scale(0.25, 0.25, 0.25)`. -/
theorem c8_triangle_scenario :
    triangleScenarioVertexData.length = 9
    ∧ triangleScenarioColorData = triangleGenerateRandomColours
    ∧ (triangleDraw ⟨true, ""⟩ triangleScenarioVertexData.length
        triangleScenarioColorData.length).frame
      = [.getUniformLocation "matrix" (some 0),
         .uniformMatrix4fv (some 0),
         .drawArrays TRIANGLES 0 3]
    ∧ triangleAnimateStep 1 0 drawInitMatrix
      = mat4create * translationMat (1/5) (1/2) 0
          * scalingMat (1/4) (1/4) (1/4) := by
  refine ⟨rfl, rfl, rfl, ?_⟩
  have h0 : rotZMat 1 0 = 1 := by
    ext i j
    fin_cases i <;> fin_cases j <;>
      simp [rotZMat, Matrix.one_apply, Matrix.vecHead, Matrix.vecTail]
  rw [triangleAnimateStep, mat4rotateZ, h0, mul_one]
  rfl

/-- C9: `Texture.draw` binds sampler unit 0 (`activeTexture(TEXTURE0)`
in setup and the `textureID` uniform set to `0`), its trace is
independent of whether the image has loaded (the load state is never
consulted, so a draw before load completion succeeds — the function is
total), and the image upload (`texImage2D` / `generateMipmap`) occurs
only in the deferred `onload` callback, never in the draw's setup or
frame. -/
theorem c9_texture_sampler_unit_zero (env : GLEnv) (loaded : Bool)
    (vlen uvlen : Nat) :
    GLCmd.activeTexture TEXTURE0 ∈ (textureDraw env loaded vlen uvlen).setup
    ∧ glGetUniformLocation textureProgram "textureID" = some 1
    ∧ GLCmd.uniform1i (glGetUniformLocation textureProgram "textureID") 0
        ∈ (textureDraw env loaded vlen uvlen).setup
    ∧ textureDraw env loaded vlen uvlen = textureDraw env true vlen uvlen
    ∧ GLCmd.texImage2D ∉ (textureDraw env loaded vlen uvlen).setup
    ∧ GLCmd.texImage2D ∉ (textureDraw env loaded vlen uvlen).frame
    ∧ textureOnload
      = [.bindTexture TEXTURE_2D, .texImage2D, .generateMipmap TEXTURE_2D] := by
  refine ⟨?_, rfl, ?_, rfl, ?_, ?_, rfl⟩ <;>
    simp [textureDraw, textureSetup, textureFrame, texturePositionBuffer,
      textureUVBuffer, textureGetTexture, shaderStage, programSetup,
      textureBindPositionBuffer, textureBindUVBuffer]

/-- C10: the Triangle's default colour data is the fixed literal
`[1,0,0, 0,1,0, 0,0,1]` — one red, one green, one blue vertex in that
order — whereas the Cube's default colour data depends on the random
colour source (two different sources give different data). -/
theorem c10_triangle_default_colours_fixed :
    triangleGenerateRandomColours = [1, 0, 0, 0, 1, 0, 0, 0, 1]
    ∧ cubeGenerateRandomColours (fun _ => ((0 : ℚ), 0, 0))
      ≠ cubeGenerateRandomColours (fun _ => ((1 : ℚ), 0, 0)) := by
  refine ⟨rfl, by decide⟩

end SolidEureka
